import Mathlib

/-!
Shallow embedding of the semantic-analysis stage of AntDB's SQL front-end
(`src/backend/parser/analyze.c`), restricted to the parts needed by the
verification claims: the row-mark locking merge (`applyLockingClause`),
the ROWNUM-to-LIMIT rewrite (`rewrite_rownum_query`), the Oracle outer-join
marker sweep (`check_joinon_column_join`), the UPDATE target-list fixup,
the set-operation column merge, the set-operation ORDER-BY range-table
truncation, the INSERT transformers and the standalone VALUES transformer.

External collaborators (catalog, expression transformer) are passed in as
explicit parameters; functions of the repository that are not part of the
sources are modelled from the specification and marked as such.
-/

namespace Analyze

/-- Object identifier, as in the PostgreSQL sources. -/
abbrev Oid := Nat

/-- `InvalidOid` of the sources. -/
def InvalidOid : Oid := 0

/-- `INT2OID` -/
def INT2OID : Oid := 21
/-- `INT4OID` -/
def INT4OID : Oid := 23
/-- `INT8OID` -/
def INT8OID : Oid := 20

/-- Error codes surfaced by the analyzer (subset used by the embedded code). -/
inductive ErrCode
  | syntaxError
  | featureNotSupported
  | undefinedColumn
  | undefinedTable
  | internalError
  deriving DecidableEq, Repr

/-- An analysis error: code plus primary message. -/
structure AErr where
  code : ErrCode
  msg : String
  deriving DecidableEq, Repr

/-! ## C1: `applyLockingClause` (analyze.c lines 3006-3045) -/

/-- `LockClauseStrength` of the sources (declaration order gives the C enum
ordinals used by `Max`). -/
inductive LockClauseStrength
  | forKeyShare
  | forShare
  | forNoKeyUpdate
  | forUpdate
  deriving DecidableEq, Repr, Fintype

/-- C enum ordinal of a `LockClauseStrength` value. -/
def lcsOrd : LockClauseStrength → Nat
  | .forKeyShare => 0
  | .forShare => 1
  | .forNoKeyUpdate => 2
  | .forUpdate => 3

/-- The C macro `Max(a, b) = ((a) > (b) ? (a) : (b))` applied to the
`LockClauseStrength` enum. -/
def lcsMax (a b : LockClauseStrength) : LockClauseStrength :=
  if lcsOrd b < lcsOrd a then a else b

/-- `RowMarkClause` of the sources (the fields touched by
`applyLockingClause`). -/
structure RowMarkClause where
  rti : Nat
  strength : LockClauseStrength
  noWait : Bool
  pushedDown : Bool
  deriving DecidableEq, Repr

/-- The part of `Query` that `applyLockingClause` reads and writes. -/
structure QueryLock where
  rowMarks : List RowMarkClause
  hasForUpdate : Bool
  deriving DecidableEq, Repr

/-- `get_parse_rowmark(qry, rtindex)`: the first row-mark clause for the
given range-table index, if any. -/
def get_parse_rowmark (q : QueryLock) (rtindex : Nat) : Option RowMarkClause :=
  q.rowMarks.find? (fun rc => rc.rti = rtindex)

/-- In-place update of the first row-mark for `rtindex`, as performed by the
merge branch of `applyLockingClause`:
`rc->strength = Max(rc->strength, strength); rc->noWait |= noWait;
rc->pushedDown &= pushedDown;`. -/
def mergeRowMarks : List RowMarkClause → Nat → LockClauseStrength → Bool → Bool →
    List RowMarkClause
  | [], _, _, _, _ => []
  | rc :: rest, rtindex, strength, noWait, pushedDown =>
    if rc.rti = rtindex then
      { rc with
        strength := lcsMax rc.strength strength
        noWait := rc.noWait || noWait
        pushedDown := rc.pushedDown && pushedDown } :: rest
    else
      rc :: mergeRowMarks rest rtindex strength noWait pushedDown

/-- `applyLockingClause(qry, rtindex, strength, noWait, pushedDown)`
(analyze.c lines 3006-3045). -/
def applyLockingClause (q : QueryLock) (rtindex : Nat)
    (strength : LockClauseStrength) (noWait pushedDown : Bool) : QueryLock :=
  -- "If it's an explicit clause, make sure hasForUpdate gets set"
  let q1 := if !pushedDown then { q with hasForUpdate := true } else q
  match get_parse_rowmark q1 rtindex with
  | some _ =>
    { q1 with rowMarks := mergeRowMarks q1.rowMarks rtindex strength noWait pushedDown }
  | none =>
    { q1 with rowMarks := q1.rowMarks ++
        [{ rti := rtindex, strength := strength, noWait := noWait,
           pushedDown := pushedDown }] }

/-- The merge on `(strength, noWait, pushedDown)` triples performed when a
row-mark already exists for the range-table index. -/
def lockMerge (a b : LockClauseStrength × Bool × Bool) :
    LockClauseStrength × Bool × Bool :=
  (lcsMax a.1 b.1, a.2.1 || b.2.1, a.2.2 && b.2.2)

theorem lcsMax_comm : ∀ a b, lcsMax a b = lcsMax b a := by decide

theorem lcsMax_assoc : ∀ a b c, lcsMax (lcsMax a b) c = lcsMax a (lcsMax b c) := by
  decide

theorem lockMerge_comm (a b : LockClauseStrength × Bool × Bool) :
    lockMerge a b = lockMerge b a := by
  obtain ⟨s1, n1, p1⟩ := a
  obtain ⟨s2, n2, p2⟩ := b
  simp [lockMerge, lcsMax_comm s1 s2, Bool.or_comm, Bool.and_comm]

theorem lockMerge_assoc (a b c : LockClauseStrength × Bool × Bool) :
    lockMerge (lockMerge a b) c = lockMerge a (lockMerge b c) := by
  obtain ⟨s1, n1, p1⟩ := a
  obtain ⟨s2, n2, p2⟩ := b
  obtain ⟨s3, n3, p3⟩ := c
  simp [lockMerge, lcsMax_assoc, Bool.or_assoc, Bool.and_assoc]

/-! ## C6: set-operation result column typmod
(analyze.c lines 1898-1908, inside `transformSetOperationTree`) -/

/-- Type, typmod and collation of one output column of a set-operation
child, as read off a child target entry by `exprType`/`exprTypmod`. -/
structure LeafCol where
  ctype : Oid
  ctypmod : Int
  ccoll : Oid
  deriving DecidableEq, Repr

/-- External type-system collaborators used by the set-operation column
merge (`select_common_type`, `select_common_collation`,
`get_sort_group_operators`). -/
structure SetOpTypeCat where
  selectCommonType : LeafCol → LeafCol → Oid
  selectCommonCollation : Oid → Oid → Bool → Oid
  sortGroupOps : Oid → Oid × Oid × Bool

/-- `SetOperation` tags of the sources (`SETOP_NONE` excluded: the merge
only runs on internal nodes). -/
inductive SetOp
  | union
  | intersect
  | exceptOp
  deriving DecidableEq, Repr

/-- The per-column result of the internal-node loop of
`transformSetOperationTree`. -/
structure SetOpCols where
  colTypes : List Oid
  colTypmods : List Int
  colCollations : List Oid
  groupClauseCount : Nat
  deriving DecidableEq, Repr

/-- The internal-node column merge of `transformSetOperationTree`
(analyze.c lines 1868-2031): enforce equal arity, then per column pair
compute `rescoltype` via `select_common_type`,
`rescoltypmod = (lcoltype == rcoltype && lcoltypmod == rcoltypmod) ?
lcoltypmod : -1`, `rescolcoll` via `select_common_collation` with
`none_ok = (op == SETOP_UNION && all)`, and append a grouping clause
unless the operation is `UNION ALL`. -/
def setOpMergeColumns (tc : SetOpTypeCat) (op : SetOp) (allFlag : Bool)
    (lcols rcols : List LeafCol) : Except AErr SetOpCols :=
  if lcols.length ≠ rcols.length then
    .error ⟨.syntaxError, "each query must have the same number of columns"⟩
  else
    let merged := List.zipWith (fun lcol rcol =>
      let rescoltype := tc.selectCommonType lcol rcol
      let rescoltypmod : Int :=
        if lcol.ctype = rcol.ctype ∧ lcol.ctypmod = rcol.ctypmod then
          lcol.ctypmod
        else
          -1
      let rescolcoll := tc.selectCommonCollation lcol.ccoll rcol.ccoll
        (op = .union && allFlag)
      (rescoltype, rescoltypmod, rescolcoll)) lcols rcols
    .ok { colTypes := merged.map (·.1)
          colTypmods := merged.map (·.2.1)
          colCollations := merged.map (·.2.2)
          groupClauseCount :=
            if op ≠ .union || !allFlag then merged.length else 0 }

/-! ## C8: range-table truncation during set-operation ORDER BY resolution
(analyze.c lines 1619-1651, inside `transformSetOperationStmt`) -/

/-- A range-table entry, opaque except for identity (the truncation claim
is about list shape only). -/
structure RTE where
  id : Nat
  deriving DecidableEq, Repr

/-- A namespace item, opaque except for identity. -/
structure NSItem where
  id : Nat
  deriving DecidableEq, Repr

/-- The part of the parse state read and written by the set-operation
ORDER-BY resolution fragment. -/
structure SetOpSortState where
  rtable : List RTE
  namespaceList : List NSItem
  deriving DecidableEq, Repr

/-- The ORDER-BY resolution fragment of `transformSetOperationStmt`
(analyze.c lines 1619-1651): save `sv_rtable_length`, append the join RTE
`jrte`, save and replace the namespace, run the sort-clause transformer
(modelled as appending `sortAdds` to the range table and replacing the
namespace with `nsDuring`, the only mutations available to it), then
truncate the range table back to `sv_rtable_length` and restore the saved
namespace. -/
def setOpResolveSort (jrte : RTE) (jrteItem : NSItem)
    (sortAdds : List RTE) (nsDuring : List NSItem)
    (st : SetOpSortState) : SetOpSortState :=
  let svRtableLength := st.rtable.length
  let st1 : SetOpSortState :=
    { rtable := st.rtable ++ [jrte], namespaceList := [jrteItem] }
  let svNamespace := st.namespaceList
  -- transformSortClause runs here
  let st2 : SetOpSortState :=
    { rtable := st1.rtable ++ sortAdds, namespaceList := nsDuring }
  -- "restore namespace, remove jrte from rtable"
  { rtable := st2.rtable.take svRtableLength, namespaceList := svNamespace }

/-! ## C5: clause ordering in `transformSelectStmt`
(analyze.c lines 1086-1219) -/

/-- `ParseGrammar` dialect selector (`PARSE_GRAM_POSTGRES`,
`PARSE_GRAM_ORACLE`). -/
inductive ParseGrammar
  | postgres
  | oracle
  deriving DecidableEq, Repr, Fintype

/-- The clause-processing steps of `transformSelectStmt`, in source
order. -/
inductive SelectStep
  | withStep
  | rejectInto
  | stashLocking
  | stashWindow
  | fromStep
  | whereStep
  | fromAndWhereRewrite
  | targetListStep
  | markOrigins
  | havingStep
  | sortStep
  | groupStep
  | distinctStep
  | limitStep
  | windowStep
  | finalizeStep
  deriving DecidableEq, Repr

/-- The order in which `transformSelectStmt` (analyze.c lines 1086-1219)
processes the clauses of a plain SELECT.  The WHERE transformation and the
`transformFromAndWhere` outer-join-marker rewrite (lines 1121-1127, inside
`#ifdef ADB`, which is defined for this repository) run unconditionally
before the target list; the parse state's grammar selector is not
consulted for this ordering. -/
def transformSelectStmtSteps (_grammar : ParseGrammar) : List SelectStep :=
  [.withStep, .rejectInto, .stashLocking, .stashWindow, .fromStep,
   .whereStep, .fromAndWhereRewrite, .targetListStep, .markOrigins,
   .havingStep, .sortStep, .groupStep, .distinctStep, .limitStep,
   .windowStep, .finalizeStep]

/-! ## C9: call ordering in `transformInsertStmt`
(analyze.c lines 560-951) -/

/-- The externally visible calls of `transformInsertStmt`, in the order
the claims talk about. -/
inductive InsertEvent
  | setTargetTableEv
  | addOracleTargetRTE
  | checkInsertTargetsEv
  | analyzeSelectStmt
  | addSubqueryRTE
  | transformValuesRow (i : Nat)
  | transformInsertRowEv
  | buildTargetListEv
  | transformReturningEv
  deriving DecidableEq, Repr

/-- The four INSERT source shapes distinguished by `transformInsertStmt`
(`DEFAULT VALUES`, general SELECT, multi-row VALUES, single-row VALUES). -/
inductive InsertSource
  | defaultValues
  | generalSelect
  | multiValues (n : Nat)
  | singleValues
  deriving DecidableEq, Repr

/-- Event trace of `transformInsertStmt` (analyze.c lines 560-951):
`setTargetTable` (line 642) runs first, before `checkInsertTargets`
(line 650) and before the source-shape branch; for a general SELECT the
source statement is analyzed by `transformStmt` on a child parse state
(line 692), then installed as a subquery RTE (line 706). -/
def transformInsertStmtEvents (grammar : ParseGrammar) (src : InsertSource)
    (hasReturning : Bool) : List InsertEvent :=
  [.setTargetTableEv] ++
  (if grammar = .oracle then [.addOracleTargetRTE] else []) ++
  [.checkInsertTargetsEv] ++
  (match src with
   | .defaultValues => []
   | .generalSelect => [.analyzeSelectStmt, .addSubqueryRTE, .transformInsertRowEv]
   | .multiValues n => (List.range n).map .transformValuesRow
   | .singleValues => [.transformInsertRowEv]) ++
  [.buildTargetListEv] ++
  (if hasReturning then [.transformReturningEv] else [])

/-! ## C10: DEFAULT rejection in `transformValuesClause`
(analyze.c lines 1273-1318) -/

/-- An expression of a transformed VALUES row: either a surviving
`SetToDefault` node or any other transformed expression. -/
inductive VExpr
  | default
  | expr (id : Nat)
  deriving DecidableEq, Repr

/-- The per-row DEFAULT check of `transformValuesClause` (analyze.c lines
1301-1314): error out at the first `SetToDefault` found in the row. -/
def valuesRowDefaultCheck : List VExpr → Except AErr Unit
  | [] => .ok ()
  | .default :: _ =>
    .error ⟨.syntaxError, "DEFAULT can only appear in a VALUES list within INSERT"⟩
  | .expr _ :: rest => valuesRowDefaultCheck rest

/-- The row-scanning loop of `transformValuesClause` (analyze.c lines
1273-1318) applied to the already-transformed rows: record the first row's
post-transformation length, reject any later row of a different length
with a syntax error, and reject `SetToDefault` items in every row.
Returns the recorded `sublist_length`. -/
def transformValuesLists : List (List VExpr) → Option Nat → Except AErr (Option Nat)
  | [], acc => .ok acc
  | row :: rest, acc =>
    match acc with
    | none =>
      match valuesRowDefaultCheck row with
      | .error e => .error e
      | .ok _ => transformValuesLists rest (some row.length)
    | some n =>
      if n ≠ row.length then
        .error ⟨.syntaxError, "VALUES lists must all be the same length"⟩
      else
        match valuesRowDefaultCheck row with
        | .error e => .error e
        | .ok _ => transformValuesLists rest (some n)

/-! ## C2: `rewrite_rownum_query` (analyze.c lines 3685-3972) -/

/-- Expression nodes relevant to the ROWNUM rewrite: `RownumExpr`,
`Const` (with `consttype`, `constvalue`, `constisnull`), `OpExpr`
(`opno`, `opfuncid`, `args`), `FuncExpr` (`funcid`, `args`), an
AND-`BoolExpr`, and an opaque placeholder for every other node kind. -/
inductive RExpr
  | rownumExpr
  | constE (consttype : Oid) (constvalue : Int) (constisnull : Bool)
  | opE (opno : Oid) (opfuncid : Oid) (args : List RExpr)
  | funcE (funcid : Oid) (args : List RExpr)
  | boolAnd (args : List RExpr)
  | other (id : Nat)
  deriving Repr

/-- The `IsA(node, RownumExpr)` discriminator. -/
def is_rownum : RExpr → Bool
  | .rownumExpr => true
  | _ => false

mutual
/-- Modelled from the spec: `contain_rownum(node)` (type-system interface,
not part of the sources) — true iff a `RownumExpr` occurs anywhere in the
expression. -/
def contain_rownum : RExpr → Bool
  | .rownumExpr => true
  | .constE _ _ _ => false
  | .opE _ _ args => contain_rownum_list args
  | .funcE _ args => contain_rownum_list args
  | .boolAnd args => contain_rownum_list args
  | .other _ => false

/-- `contain_rownum` over an argument list. -/
def contain_rownum_list : List RExpr → Bool
  | [] => false
  | x :: xs => contain_rownum x || contain_rownum_list xs
end

/-- External catalog and parser collaborators of the ROWNUM rewrite:
the `pg_operator` scan used by `get_operator_for_function`,
`get_commutator`, `get_opname`, `contain_mutable_functions`, and
`make_op2(SystemFuncName("-"), r, make_int8_const(1))` (returning `none`
on failure, matching the `noError = true` call). -/
structure RownumCatalog where
  pgOperator : List (Oid × Oid)
  commutator : Oid → Oid
  opname : Oid → Option String
  containMutable : RExpr → Bool
  makeOp2Minus : RExpr → Option RExpr

/-- `get_operator_for_function(funcid)` (analyze.c lines 3946-3972):
first `pg_operator` tuple whose `oprcode` equals `funcid`, else
`InvalidOid`. -/
def get_operator_for_function (cat : RownumCatalog) (funcid : Oid) : Oid :=
  if funcid = InvalidOid then InvalidOid
  else
    match cat.pgOperator.find? (fun t => t.2 = funcid) with
    | some t => t.1
    | none => InvalidOid

/-- `make_int8_const(value)` (analyze.c lines 3902-3915). -/
def make_int8_const (v : Int) : RExpr := .constE INT8OID v false

/-- `const_get_int64(expr, &val)` (analyze.c lines 3920-3944): accepts
non-null `INT8`/`INT4`/`INT2` constants only. -/
def const_get_int64 : RExpr → Option Int
  | .constE t v isnull =>
    if isnull then none
    else if t = INT8OID then some v
    else if t = INT4OID then some v
    else if t = INT2OID then some v
    else none
  | _ => none

/-- Modelled from the spec: `canonicalize_qual` (optimizer/prep, not part
of the sources) canonicalizes the WHERE qualifier into an AND-list; the
`RExpr.boolAnd` representation is already flat, so it is the identity. -/
def canonicalize_qual (e : RExpr) : RExpr := e

/-- Outcome of processing one ROWNUM-containing predicate in the scan
loop of `rewrite_rownum_query`. -/
inductive RownumPredResult
  | abandon
  | breakEmpty
  | keep (newLim : Option RExpr)
  deriving Repr

/-- One iteration of the predicate loop of `rewrite_rownum_query`
(analyze.c lines 3726-3873) on a predicate already known to contain
ROWNUM: extract the binary operator (resolving a `FuncExpr` through
`get_operator_for_function`), normalize ROWNUM to the left via the
commutator, then dispatch on the operator name. -/
def rownum_pred_step (cat : RownumCatalog) (limitCount : Option RExpr)
    (expr : RExpr) : RownumPredResult :=
  let parsed : Option (List RExpr × Oid × Oid) :=
    match expr with
    | .opE opno opfuncid args => some (args, opno, opfuncid)
    | .funcE funcid args => some (args, InvalidOid, funcid)
    | _ => none
  match parsed with
  | none => .abandon
  | some (args, opno0, funcid) =>
    match args with
    | [l0, r0] =>
      if !is_rownum l0 && !is_rownum r0 then .abandon
      else
        let opno1 :=
          if opno0 = InvalidOid then get_operator_for_function cat funcid
          else opno0
        if opno1 = InvalidOid then .abandon
        else
          -- exchange operator, like "10>rownum" to "rownum<10"
          let swapped :=
            if is_rownum r0 then
              let opno2 := cat.commutator opno1
              if opno2 = InvalidOid then none else some (r0, l0, opno2)
            else some (l0, r0, opno1)
          match swapped with
          | none => .abandon
          | some (l, r, opno) =>
            if !is_rownum l then .abandon
            else
              match cat.opname opno with
              | none => .abandon
              | some nm =>
                if nm = "<=" || nm = "<" || nm = "<>" then
                  if cat.containMutable r then .abandon
                  else
                    match const_get_int64 r with
                    | none => .abandon
                    | some v =>
                      if nm = "<=" then
                        if v ≤ 0 then .breakEmpty
                        else if limitCount.isSome then .abandon
                        else .keep (some r)
                      else if nm = "<" then
                        if v ≤ 1 then .breakEmpty
                        else if limitCount.isSome then .abandon
                        else
                          match cat.makeOp2Minus r with
                          | none => .abandon
                          | some m => .keep (some m)
                      else
                        -- rownum <> expr
                        if v ≤ 0 then .keep limitCount
                        else if limitCount.isSome then .abandon
                        else
                          match cat.makeOp2Minus r with
                          | none => .abandon
                          | some m => .keep (some m)
                else if nm = ">=" || nm = ">" then
                  match const_get_int64 r with
                  | none => .abandon
                  | some v =>
                    if nm = ">=" then
                      if v ≠ 1 then .abandon else .keep limitCount
                    else
                      if v ≠ 0 then .abandon else .keep limitCount
                else if nm = "=" then
                  if !is_rownum r then .abandon else .keep limitCount
                else .abandon
    | _ => .abandon

/-- Outcome of the whole scan loop: `abandon` (a `return` in the source),
`broke` (`qual_list = NIL; break`, with `limitCount = 0`), or normal
completion with the accumulated limit and hint set. -/
inductive RownumScanResult
  | abandon
  | broke
  | done (lim : Option RExpr) (hints : List Nat)
  deriving Repr

/-- The scan loop of `rewrite_rownum_query` (analyze.c lines 3717-3874)
over the canonicalized qualifier list: skip predicates without ROWNUM,
process the others with `rownum_pred_step`, recording the index of each
consumed predicate in `hints`. -/
def rownum_scan (cat : RownumCatalog) :
    List RExpr → Nat → Option RExpr → List Nat → RownumScanResult
  | [], _, lim, hints => .done lim hints
  | e :: rest, i, lim, hints =>
    if contain_rownum e = false then rownum_scan cat rest (i + 1) lim hints
    else
      match rownum_pred_step cat lim e with
      | .abandon => .abandon
      | .breakEmpty => .broke
      | .keep newLim => rownum_scan cat rest (i + 1) newLim (hints ++ [i])

/-- The qualifier-rebuild loop of `rewrite_rownum_query` (analyze.c lines
3879-3887): keep the predicates whose index is not in `hints`. -/
def rownum_keep_quals (hints : List Nat) : List RExpr → Nat → List RExpr
  | [], _ => []
  | x :: xs, i =>
    if i ∈ hints then rownum_keep_quals hints xs (i + 1)
    else x :: rownum_keep_quals hints xs (i + 1)

/-- The `FromExpr` join tree as seen by the ROWNUM rewrite: only its
qualifier matters. -/
structure FromExprR where
  quals : Option RExpr
  deriving Repr

/-- The `Query` fields read and written by `rewrite_rownum_query`. -/
structure QueryR where
  jointree : Option FromExprR
  limitOffset : Option RExpr
  limitCount : Option RExpr
  deriving Repr

/-- `rewrite_rownum_query(query)` (analyze.c lines 3691-3900): if the
query has a join tree, no LIMIT/OFFSET, and ROWNUM in its qualifier,
canonicalize the qualifier (the canonicalized value is stored back
immediately, line 3711), scan the AND-list, then install `limitCount` and
rebuild the qualifier from the unconsumed predicates — but only when
`qual_list` is non-NIL (line 3877), so on the `break` paths the stored
canonicalized qualifier is left in place. -/
def rewrite_rownum_query (cat : RownumCatalog) (query : QueryR) : QueryR :=
  match query.jointree with
  | none => query
  | some jt =>
    if query.limitOffset.isSome || query.limitCount.isSome then query
    else
      match jt.quals with
      | none => query
      | some q0 =>
        if contain_rownum q0 = false then query
        else
          let expr := canonicalize_qual q0
          let jt1 : FromExprR := { quals := some expr }
          let qualList :=
            match expr with
            | .boolAnd args => args
            | _ => [expr]
          match rownum_scan cat qualList 0 none [] with
          | .abandon => { query with jointree := some jt1 }
          | .broke =>
            { query with jointree := some jt1,
                         limitCount := some (make_int8_const 0) }
          | .done lim hints =>
            let args := rownum_keep_quals hints qualList 0
            let newQuals : Option RExpr :=
              match args with
              | [] => none
              | [a] => some a
              | _ => some (.boolAnd args)
            { query with jointree := some { quals := newQuals },
                         limitCount := lim }

/-! ## C4: UPDATE target-list fixup (analyze.c lines 2194-2247) -/

/-- A transformed target entry as seen by the UPDATE fixup loop
(`resno`, `resname`, `resjunk`, opaque expression id). -/
structure UTargetEntry where
  resno : Nat
  resname : Option String
  resjunk : Bool
  exprId : Nat
  deriving DecidableEq, Repr

/-- A raw `ResTarget` of the UPDATE statement's SET list (only the
assigned column name matters here). -/
structure UResTarget where
  name : String
  deriving DecidableEq, Repr

/-- Helper for `attnameAttNum`: 1-based position of `name` in the column
list, 0 when absent. -/
def attnameAttNumFrom : List String → String → Nat → Nat
  | [], _, _ => 0
  | c :: cs, name, i =>
    if c = name then i else attnameAttNumFrom cs name (i + 1)

/-- Modelled from the spec: `attnameAttNum` (parse_relation.c, not part of
the sources) is the catalog's
`attribute_number(relation, column_name) → attnum | INVALID`: the 1-based
attribute number of the named column, `InvalidAttrNumber = 0` when it
does not exist. -/
def attnameAttNum (relCols : List String) (name : String) : Nat :=
  attnameAttNumFrom relCols name 1

/-- Modelled from the spec: `updateTargetListEntry` (parse_target.c, not
part of the sources) binds the target entry to the assigned column:
"call `updateTargetListEntry` to bind attnum" and "every non-junk output
entry has `result_no == attnum_of_target_column`" — so it sets
`resno := attrno`. -/
def updateTargetListEntry (tle : UTargetEntry) (attrno : Nat) : UTargetEntry :=
  { tle with resno := attrno }

/-- The fixup loop of `transformUpdateStmt` (analyze.c lines 2202-2247):
resjunk entries are renumbered from the running counter and their name
cleared; each non-junk entry consumes one original `ResTarget`, is bound
to its column's attribute number (`UNDEFINED_COLUMN` if the column does
not exist), and a leftover on either side is the
"UPDATE target count mismatch" internal error. -/
def updateTargetListFixup (relCols : List String) :
    List UTargetEntry → List UResTarget → Nat → Except AErr (List UTargetEntry)
  | [], origs, _ =>
    match origs with
    | [] => .ok []
    | _ :: _ =>
      .error ⟨.internalError, "UPDATE target count mismatch --- internal error"⟩
  | tle :: rest, origs, nextResno =>
    if tle.resjunk then
      match updateTargetListFixup relCols rest origs (nextResno + 1) with
      | .error e => .error e
      | .ok out => .ok ({ tle with resno := nextResno, resname := none } :: out)
    else
      match origs with
      | [] =>
        .error ⟨.internalError, "UPDATE target count mismatch --- internal error"⟩
      | origTarget :: origRest =>
        let attrno := attnameAttNum relCols origTarget.name
        if attrno = 0 then
          .error ⟨.undefinedColumn, "column of relation does not exist"⟩
        else
          match updateTargetListFixup relCols rest origRest nextResno with
          | .error e => .error e
          | .ok out => .ok (updateTargetListEntry tle attrno :: out)

/-- The target-list part of `transformUpdateStmt` after SELECT-like
processing (analyze.c lines 2194-2247): push the resjunk counter past the
target relation's column count, then run the fixup loop. -/
def transformUpdateTargetList (relCols : List String) (relnatts nextResno : Nat)
    (tlist : List UTargetEntry) (origs : List UResTarget) :
    Except AErr (List UTargetEntry) :=
  let start := if nextResno ≤ relnatts then relnatts + 1 else nextResno
  updateTargetListFixup relCols tlist origs start

/-! ## C7: INSERT with multiple VALUES rows (analyze.c lines 774-869) -/

/-- A transformed VALUES expression for the INSERT path: opaque id,
whether it contains current-level Vars, and its collation. -/
structure IExpr where
  eid : Nat
  hasVarLevel0 : Bool
  collation : Oid
  deriving DecidableEq, Repr

/-- An INSERT target column: one entry of the paired
`icolumns`/`attrnos` lists built by `checkInsertTargets`. -/
structure ICol where
  name : String
  attnum : Nat
  deriving DecidableEq, Repr

/-- `contain_vars_of_level((Node *) exprsLists, 0)` on the transformed
row lists. -/
def contain_vars_of_level0 (lists : List (List IExpr)) : Bool :=
  lists.any (fun row => row.any (·.hasVarLevel0))

/-- `transformInsertRow` (analyze.c lines 959-1034): reject a row longer
than the target column list, reject a shorter row when an explicit column
list was given, then run `transformAssignedExpr` (external, passed in as
`assign`) on each expression/column pair. -/
def transformInsertRow (assign : IExpr → ICol → IExpr) (exprlist : List IExpr)
    (stmtCols : List String) (icolumns : List ICol) : Except AErr (List IExpr) :=
  if exprlist.length > icolumns.length then
    .error ⟨.syntaxError, "INSERT has more expressions than target columns"⟩
  else if stmtCols ≠ [] ∧ exprlist.length < icolumns.length then
    .error ⟨.syntaxError, "INSERT has more target columns than expressions"⟩
  else
    .ok (List.zipWith assign exprlist icolumns)

/-- The per-row loop of the multi-row VALUES branch of
`transformInsertStmt` (analyze.c lines 790-836): record the first row's
post-transformation length, reject later rows of a different length, and
prepare each row with `transformInsertRow` (collations are assigned
independently within each row by `assign_list_collations`, which does not
touch the fields modelled here). -/
def insertValuesScan (assign : IExpr → ICol → IExpr) (stmtCols : List String)
    (icolumns : List ICol) :
    List (List IExpr) → Option Nat → Except AErr (Option Nat × List (List IExpr))
  | [], acc => .ok (acc, [])
  | sublist :: rest, acc =>
    let checkLen : Except AErr Nat :=
      match acc with
      | none => .ok sublist.length
      | some n =>
        if n ≠ sublist.length then
          .error ⟨.syntaxError, "VALUES lists must all be the same length"⟩
        else .ok n
    match checkLen with
    | .error e => .error e
    | .ok n =>
      match transformInsertRow assign sublist stmtCols icolumns with
      | .error e => .error e
      | .ok row =>
        match insertValuesScan assign stmtCols icolumns rest (some n) with
        | .error e => .error e
        | .ok (len, rows) => .ok (len, row :: rows)

/-- Result of the multi-row VALUES branch: the transformed expression
lists, the collation list stored on the generated VALUES range-table
entry, and its LATERAL flag. -/
structure InsertValuesResult where
  exprsLists : List (List IExpr)
  collations : List Oid
  lateral : Bool
  deriving DecidableEq, Repr

/-- The multi-row VALUES branch of `transformInsertStmt` (analyze.c lines
774-869): run the per-row loop, then build the VALUES RTE inputs — the
collation list is `sublist_length` copies of `InvalidOid` (lines 838-843:
"Although we don't really need collation info, let's just make sure we
provide a correctly-sized list"), and the RTE is marked LATERAL when the
range table length differs from 1 and current-level Vars appear in the
expression lists (lines 845-853). -/
def transformInsertMultiValues (assign : IExpr → ICol → IExpr)
    (stmtCols : List String) (icolumns : List ICol) (rtableLen : Nat)
    (valuesLists : List (List IExpr)) : Except AErr InsertValuesResult :=
  match insertValuesScan assign stmtCols icolumns valuesLists none with
  | .error e => .error e
  | .ok (len, exprsLists) =>
    .ok { exprsLists := exprsLists
          collations := List.replicate (len.getD 0) InvalidOid
          lateral := (rtableLen != 1) && contain_vars_of_level0 exprsLists }

/-- Modelled from the spec: `select_common_collation` (parse_collate.c,
not part of the sources) — the common collation of a column's
expressions: when all of them carry the same collation, that collation;
on conflict `InvalidOid` (§4.7: "no error on conflict — record
InvalidOid"). -/
def specSelectCommonCollation (exprs : List IExpr) : Oid :=
  match exprs with
  | [] => InvalidOid
  | e :: rest =>
    if rest.all (fun x => x.collation == e.collation) then e.collation
    else InvalidOid

/-! ## C3: outer-join-marker sweep `check_joinon_column_join`
(analyze.c lines 3069-3157 and 3311-3375), invoked by `parse_analyze` on
the analyzed query's join tree (line 168) -/

/-- Expression nodes relevant to the marker sweep: a `ColumnRefJoin`
marker wrapping a `Var` (with its source location), a plain `Var`, and a
generic interior node with children (covering `OpExpr`, `BoolExpr`,
etc. as walked by `expression_tree_walker`). -/
inductive MExpr
  | crj (varno : Nat) (location : Int)
  | varE (varno : Nat)
  | opME (args : List MExpr)
  deriving Repr

/-- `JoinType` of the sources (the tags the sweep inspects). -/
inductive JoinType
  | inner
  | left
  | right
  | full
  deriving DecidableEq, Repr

mutual
/-- `have_ora_column_join(node, ctx)` (analyze.c lines 3069-3079): true
iff a `ColumnRefJoin` occurs (the walker returns before descending into
the marker's wrapped `Var`). -/
def have_ora_column_join : MExpr → Bool
  | .crj _ _ => true
  | .varE _ => false
  | .opME args => have_ora_column_join_list args

/-- `have_ora_column_join` over children, in walker order. -/
def have_ora_column_join_list : List MExpr → Bool
  | [] => false
  | x :: xs => have_ora_column_join x || have_ora_column_join_list xs
end

/-- `have_ora_column_join` lifted to a nullable qualifier (the walker
returns false on `NULL`). -/
def have_ora_opt : Option MExpr → Bool
  | none => false
  | some e => have_ora_column_join e

/-- `JoinExprInfo` (analyze.c lines 3048-3055) as accumulated by
`get_ora_column_join_walker` (the predicate expression itself is carried
separately in this embedding). -/
structure JoinExprInfo where
  jtype : JoinType
  lrtindex : Nat
  rrtindex : Nat
  location : Int
  deriving DecidableEq, Repr

mutual
/-- `get_ora_column_join_walker` (analyze.c lines 3081-3133): a marker
fixes the outer-joined (right) table — a second distinct one is a syntax
error; a plain `Var` fills `lrtindex`, then (for inner predicates)
`rrtindex`; a third distinct table is a syntax error.  The walker does
not descend into a marker's wrapped `Var`. -/
def get_ora_walker : MExpr → JoinExprInfo → Except AErr JoinExprInfo
  | .crj varno loc, info =>
    if info.rrtindex = 0 then
      .ok { info with jtype := .left, rrtindex := varno, location := loc }
    else if info.rrtindex ≠ varno then
      .error ⟨.syntaxError, "a predicate may reference only one outer-joined table"⟩
    else .ok info
  | .varE varno, info =>
    if info.lrtindex = varno ∨ info.rrtindex = varno then .ok info
    else if info.lrtindex = 0 then .ok { info with lrtindex := varno }
    else if info.rrtindex = 0 ∧ info.jtype = .inner then
      .ok { info with rrtindex := varno }
    else if info.rrtindex ≠ varno ∧ info.lrtindex ≠ varno then
      .error ⟨.syntaxError, "a predicate may reference only one outer-joined table"⟩
    else .ok info
  | .opME args, info => get_ora_walker_list args info

/-- `get_ora_column_join_walker` over children, in walker order. -/
def get_ora_walker_list : List MExpr → JoinExprInfo → Except AErr JoinExprInfo
  | [], info => .ok info
  | x :: xs, info =>
    match get_ora_walker x info with
    | .error e => .error e
    | .ok info' => get_ora_walker_list xs info'
end

/-- `get_ora_column_join(expr, pstate)` (analyze.c lines 3135-3148). -/
def get_ora_column_join (expr : MExpr) : Except AErr JoinExprInfo :=
  get_ora_walker expr { jtype := .inner, lrtindex := 0, rrtindex := 0, location := -1 }

mutual
/-- `remove_column_join_expr` (analyze.c lines 3150-3157): replace every
`ColumnRefJoin` by its wrapped `Var`. -/
def remove_column_join_expr : MExpr → MExpr
  | .crj varno _ => .varE varno
  | .varE v => .varE v
  | .opME args => .opME (remove_column_join_expr_list args)

/-- `remove_column_join_expr` over children. -/
def remove_column_join_expr_list : List MExpr → List MExpr
  | [] => []
  | x :: xs => remove_column_join_expr x :: remove_column_join_expr_list xs
end

/-- The join tree walked by the sweep: `RangeTblRef`, `JoinExpr` (with
qualifier), `FromExpr` (with from-list and qualifier). -/
inductive JTree
  | rtref (rtindex : Nat)
  | joinExpr (jointype : JoinType) (larg rarg : JTree) (quals : Option MExpr)
  | fromExpr (fromlist : List JTree) (quals : Option MExpr)
  deriving Repr

/-- The direction-conflict test of `check_joinon_column_join` (analyze.c
lines 3332-3356), run when the predicate is outer-typed: a `RangeTblRef`
child whose index matches the predicate's endpoint on the wrong side of
the enclosing join fails. -/
def joinon_conflict (jinfo : JoinExprInfo) (jointype : JoinType)
    (larg rarg : JTree) : Bool :=
  let failedL : Bool :=
    match larg with
    | .rtref rt =>
      (if rt = jinfo.lrtindex ∧ jointype ≠ JoinType.left then true else false) ||
      (if rt = jinfo.rrtindex ∧ jointype ≠ JoinType.right then true else false)
    | _ => false
  let failedR : Bool :=
    match rarg with
    | .rtref rt =>
      (if rt = jinfo.lrtindex ∧ jointype ≠ JoinType.right then true else false) ||
      (if rt = jinfo.rrtindex ∧ jointype ≠ JoinType.left then true else false)
    | _ => false
  failedL || failedR

mutual
/-- `check_joinon_column_join(node, pstate)` (analyze.c lines 3311-3375):
recurse into both join arms, then — when the join qualifier carries a
marker — extract its `JoinExprInfo`, reject direction conflicts for
outer-typed predicates, and strip the markers from the qualifier; for a
`FromExpr`, recurse into the from-list and strip markers from its
qualifier. -/
def check_joinon_column_join : JTree → Except AErr JTree
  | .rtref i => .ok (.rtref i)
  | .joinExpr jointype larg rarg quals =>
    match check_joinon_column_join larg with
    | .error e => .error e
    | .ok larg' =>
      match check_joinon_column_join rarg with
      | .error e => .error e
      | .ok rarg' =>
        match quals with
        | none => .ok (.joinExpr jointype larg' rarg' none)
        | some q =>
          if have_ora_column_join q = false then
            .ok (.joinExpr jointype larg' rarg' (some q))
          else
            match get_ora_column_join q with
            | .error e => .error e
            | .ok jinfo =>
              if jinfo.jtype ≠ JoinType.inner ∧
                  joinon_conflict jinfo jointype larg' rarg' = true then
                .error ⟨.syntaxError,
                  "a predicate may reference only on outer-joined table"⟩
              else
                .ok (.joinExpr jointype larg' rarg'
                  (some (remove_column_join_expr q)))
  | .fromExpr fromlist quals =>
    match check_joinon_list fromlist with
    | .error e => .error e
    | .ok fromlist' =>
      match quals with
      | none => .ok (.fromExpr fromlist' none)
      | some q =>
        if have_ora_column_join q then
          .ok (.fromExpr fromlist' (some (remove_column_join_expr q)))
        else
          .ok (.fromExpr fromlist' (some q))

/-- `check_joinon_column_join` over a from-list. -/
def check_joinon_list : List JTree → Except AErr (List JTree)
  | [] => .ok []
  | t :: ts =>
    match check_joinon_column_join t with
    | .error e => .error e
    | .ok t' =>
      match check_joinon_list ts with
      | .error e => .error e
      | .ok ts' => .ok (t' :: ts')
end

mutual
/-- No `ColumnRefJoin` marker occurs in any qualifier of the join tree. -/
def tree_no_marker : JTree → Bool
  | .rtref _ => true
  | .joinExpr _ larg rarg quals =>
    tree_no_marker larg && tree_no_marker rarg && !have_ora_opt quals
  | .fromExpr fromlist quals =>
    tree_no_marker_list fromlist && !have_ora_opt quals

/-- `tree_no_marker` over a from-list. -/
def tree_no_marker_list : List JTree → Bool
  | [] => true
  | t :: ts => tree_no_marker t && tree_no_marker_list ts
end

end Analyze

/-! # Theorems -/

namespace Analyze

theorem get_parse_rowmark_ignores_hfu (q : QueryLock) (b : Bool) (rtindex : Nat) :
    get_parse_rowmark { q with hasForUpdate := b } rtindex =
      get_parse_rowmark q rtindex := rfl

/-- Normal form of `applyLockingClause`: the row-mark list is merged or
extended, and `hasForUpdate` picks up `!pushedDown`. -/
theorem applyLockingClause_eq (q : QueryLock) (rtindex : Nat)
    (s : LockClauseStrength) (nw pd : Bool) :
    applyLockingClause q rtindex s nw pd =
      { rowMarks :=
          match get_parse_rowmark q rtindex with
          | some _ => mergeRowMarks q.rowMarks rtindex s nw pd
          | none => q.rowMarks ++
              [{ rti := rtindex, strength := s, noWait := nw, pushedDown := pd }]
        hasForUpdate := q.hasForUpdate || !pd } := by
  cases pd <;> cases hq : get_parse_rowmark q rtindex <;>
    simp [applyLockingClause, get_parse_rowmark_ignores_hfu, hq]

theorem mergeRowMarks_find (rtindex : Nat) (s : LockClauseStrength) (nw pd : Bool) :
    ∀ (l : List RowMarkClause) (rc : RowMarkClause),
      l.find? (fun x => x.rti = rtindex) = some rc →
      (mergeRowMarks l rtindex s nw pd).find? (fun x => x.rti = rtindex) =
        some { rc with
                strength := lcsMax rc.strength s
                noWait := rc.noWait || nw
                pushedDown := rc.pushedDown && pd } := by
  intro l
  induction l with
  | nil => intro rc h; simp at h
  | cons hd tl ih =>
    intro rc h
    by_cases hh : hd.rti = rtindex
    · rw [List.find?_cons_of_pos _ (by simp [hh])] at h
      cases h
      simp only [mergeRowMarks, hh, if_true]
      rw [List.find?_cons_of_pos _ (by simp [hh])]
    · rw [List.find?_cons_of_neg _ (by simp [hh])] at h
      simp only [mergeRowMarks, hh, if_false]
      rw [List.find?_cons_of_neg _ (by simp [hh])]
      exact ih rc h

/-- C1: when a row-mark already exists for `rtindex`, `applyLockingClause`
merges it with `Max` strength, disjunction of `noWait` and conjunction of
`pushedDown`; this merge operation is commutative and associative, and
`hasForUpdate` is set whenever the applied clause is not pushed down. -/
theorem applyLockingClause_merge_spec
    (q : QueryLock) (rtindex : Nat) (rc : RowMarkClause)
    (s : LockClauseStrength) (nw pd : Bool)
    (h : get_parse_rowmark q rtindex = some rc) :
    get_parse_rowmark (applyLockingClause q rtindex s nw pd) rtindex =
      some { rc with
              strength := lcsMax rc.strength s
              noWait := rc.noWait || nw
              pushedDown := rc.pushedDown && pd } ∧
    (∀ a b, lockMerge a b = lockMerge b a) ∧
    (∀ a b c, lockMerge (lockMerge a b) c = lockMerge a (lockMerge b c)) ∧
    (pd = false → (applyLockingClause q rtindex s nw pd).hasForUpdate = true) := by
  refine ⟨?_, lockMerge_comm, lockMerge_assoc, ?_⟩
  · rw [applyLockingClause_eq, get_parse_rowmark, h]
    exact mergeRowMarks_find rtindex s nw pd q.rowMarks rc h
  · intro hpd
    subst hpd
    rw [applyLockingClause_eq]
    simp

/-- Witness for `applyLockingClause_merge_spec` at a concrete query state
(the §8 scenario: an existing pushed-down FOR SHARE mark merged with an
explicit FOR UPDATE NOWAIT clause). -/
theorem applyLockingClause_merge_spec_witness :
    get_parse_rowmark
      ⟨[{ rti := 3, strength := .forShare, noWait := false, pushedDown := true }],
        false⟩ 3 =
      some { rti := 3, strength := .forShare, noWait := false, pushedDown := true } ∧
    (get_parse_rowmark
        (applyLockingClause
          ⟨[{ rti := 3, strength := .forShare, noWait := false, pushedDown := true }],
            false⟩ 3 .forUpdate true false) 3 =
      some { rti := 3,
             strength := lcsMax .forShare .forUpdate,
             noWait := false || true,
             pushedDown := true && false } ∧
      (∀ a b, lockMerge a b = lockMerge b a) ∧
      (∀ a b c, lockMerge (lockMerge a b) c = lockMerge a (lockMerge b c)) ∧
      (false = false →
        (applyLockingClause
          ⟨[{ rti := 3, strength := .forShare, noWait := false, pushedDown := true }],
            false⟩ 3 .forUpdate true false).hasForUpdate = true)) :=
  ⟨by decide,
   applyLockingClause_merge_spec
     ⟨[{ rti := 3, strength := .forShare, noWait := false, pushedDown := true }],
       false⟩ 3
     { rti := 3, strength := .forShare, noWait := false, pushedDown := true }
     .forUpdate true false (by decide)⟩

/-- C6 counterexample: with equal typmods (9) but different column types
(1043 vs 1042), the merged typmod is -1, not the left typmod 9 that the
claim predicts. -/
theorem setOpResColTypmod_counterexample :
    setOpMergeColumns
      ⟨fun _ _ => 25, fun _ _ _ => InvalidOid, fun _ => (0, 0, false)⟩
      .union true [⟨1043, 9, 0⟩] [⟨1042, 9, 0⟩] =
      .ok { colTypes := [25], colTypmods := [-1], colCollations := [0],
            groupClauseCount := 0 } ∧
    ¬ ((-1 : Int) = 9) := by
  constructor
  · rfl
  · decide

/-- C6 amended: the merged column typmod equals the left column's typmod
whenever the left and right column **types** and typmods are both equal,
and is -1 otherwise. -/
theorem setOpMergeColumns_typmod (tc : SetOpTypeCat) (op : SetOp)
    (allFlag : Bool) (lcols rcols : List LeafCol) (res : SetOpCols)
    (h : setOpMergeColumns tc op allFlag lcols rcols = .ok res) :
    res.colTypmods = List.zipWith
      (fun lcol rcol =>
        if lcol.ctype = rcol.ctype ∧ lcol.ctypmod = rcol.ctypmod then
          lcol.ctypmod
        else
          (-1 : Int)) lcols rcols := by
  unfold setOpMergeColumns at h
  by_cases hl : lcols.length ≠ rcols.length
  · simp [hl] at h
  · simp only [hl, if_false] at h
    cases h
    simp only [List.map_zipWith]

/-- Witness for `setOpMergeColumns_typmod` at a concrete input. -/
theorem setOpMergeColumns_typmod_witness :
    setOpMergeColumns
      ⟨fun _ _ => 23, fun _ _ _ => InvalidOid, fun _ => (0, 0, false)⟩
      .intersect false [⟨23, -1, 0⟩, ⟨1043, 9, 0⟩] [⟨23, -1, 0⟩, ⟨1043, 9, 0⟩] =
      .ok { colTypes := [23, 23], colTypmods := [-1, 9],
            colCollations := [0, 0], groupClauseCount := 2 } ∧
    (SetOpCols.colTypmods
      { colTypes := [23, 23], colTypmods := [-1, 9],
        colCollations := [0, 0], groupClauseCount := 2 }) =
      List.zipWith
        (fun lcol rcol =>
          if lcol.ctype = rcol.ctype ∧ lcol.ctypmod = rcol.ctypmod then
            lcol.ctypmod
          else
            (-1 : Int))
        ([⟨23, -1, 0⟩, ⟨1043, 9, 0⟩] : List LeafCol)
        ([⟨23, -1, 0⟩, ⟨1043, 9, 0⟩] : List LeafCol) :=
  ⟨rfl,
   setOpMergeColumns_typmod
     ⟨fun _ _ => 23, fun _ _ _ => InvalidOid, fun _ => (0, 0, false)⟩
     .intersect false _ _ _ rfl⟩

/-- C5 counterexample: with the standard (non-alternate-dialect) grammar
the claim predicts that the target list is transformed before WHERE, but
the source transforms WHERE (and applies the outer-join-marker rewrite)
before the target list regardless of the grammar selector. -/
theorem transformSelectStmt_order_counterexample :
    ¬ ((transformSelectStmtSteps .postgres).indexOf .targetListStep <
        (transformSelectStmtSteps .postgres).indexOf .whereStep) := by
  decide

/-- C5 amended: in the SELECT transformer the WHERE clause is always
transformed before the target list, and the outer-join-marker rewrite is
applied between the two, for every grammar selector (the ordering is
fixed at build time by `#ifdef ADB`, not gated on the dialect). -/
theorem transformSelectStmt_where_before_targetlist :
    ∀ g : ParseGrammar,
      (transformSelectStmtSteps g).indexOf .whereStep <
        (transformSelectStmtSteps g).indexOf .fromAndWhereRewrite ∧
      (transformSelectStmtSteps g).indexOf .fromAndWhereRewrite <
        (transformSelectStmtSteps g).indexOf .targetListStep := by
  decide

/-- C9: for every INSERT whose source is a general SELECT,
`setTargetTable` (write lock + ACL_INSERT on the target) occurs strictly
before the source SELECT is analyzed, for every grammar and RETURNING
shape. -/
theorem transformInsertStmt_lock_before_select :
    ∀ (g : ParseGrammar) (hasReturning : Bool),
      InsertEvent.setTargetTableEv ∈
        transformInsertStmtEvents g .generalSelect hasReturning ∧
      InsertEvent.analyzeSelectStmt ∈
        transformInsertStmtEvents g .generalSelect hasReturning ∧
      (transformInsertStmtEvents g .generalSelect hasReturning).indexOf
          .setTargetTableEv <
        (transformInsertStmtEvents g .generalSelect hasReturning).indexOf
          .analyzeSelectStmt := by
  intro g hasReturning
  cases g <;> cases hasReturning <;> exact ⟨by decide, by decide, by decide⟩

theorem valuesRowDefaultCheck_eq (row : List VExpr) :
    valuesRowDefaultCheck row =
      (if VExpr.default ∈ row then
        .error ⟨.syntaxError,
          "DEFAULT can only appear in a VALUES list within INSERT"⟩
      else .ok ()) := by
  induction row with
  | nil => rfl
  | cons x rest ih =>
    cases x with
    | default => rfl
    | expr i =>
      have hmem : (VExpr.default ∈ VExpr.expr i :: rest) = (VExpr.default ∈ rest) := by
        simp
      simp only [valuesRowDefaultCheck, ih, hmem]

/-- C10: a standalone VALUES query one of whose rows contains a DEFAULT
item fails with a SYNTAX_ERROR, and when all rows have the same
post-transformation length the error is exactly the
"DEFAULT can only appear in a VALUES list within INSERT" error. -/
theorem transformValuesLists_rejects_default (rows : List (List VExpr))
    (h : ∃ row ∈ rows, VExpr.default ∈ row) :
    (∃ e, transformValuesLists rows none = .error e ∧ e.code = .syntaxError) ∧
    ((∀ r₁ ∈ rows, ∀ r₂ ∈ rows, List.length r₁ = List.length r₂) →
      transformValuesLists rows none =
        .error ⟨.syntaxError,
          "DEFAULT can only appear in a VALUES list within INSERT"⟩) := by
  have main : ∀ (rs : List (List VExpr)) (acc : Option Nat),
      (∃ row ∈ rs, VExpr.default ∈ row) →
      (∃ e, transformValuesLists rs acc = .error e ∧ e.code = .syntaxError) := by
    intro rs
    induction rs with
    | nil => intro acc h'; obtain ⟨row, hm, _⟩ := h'; cases hm
    | cons row rest ih =>
      intro acc h'
      by_cases hd : VExpr.default ∈ row
      · cases acc with
        | none =>
          refine ⟨⟨.syntaxError,
            "DEFAULT can only appear in a VALUES list within INSERT"⟩, ?_, rfl⟩
          simp [transformValuesLists, valuesRowDefaultCheck_eq, hd]
        | some n =>
          by_cases hlen : n ≠ row.length
          · exact ⟨⟨.syntaxError, "VALUES lists must all be the same length"⟩,
              by simp [transformValuesLists, hlen], rfl⟩
          · refine ⟨⟨.syntaxError,
              "DEFAULT can only appear in a VALUES list within INSERT"⟩, ?_, rfl⟩
            simp [transformValuesLists, hlen, valuesRowDefaultCheck_eq, hd]
      · have hnext : ∃ r ∈ rest, VExpr.default ∈ r := by
          obtain ⟨r, hm, hdm⟩ := h'
          cases hm with
          | head => exact absurd hdm hd
          | tail _ hm' => exact ⟨r, hm', hdm⟩
        cases acc with
        | none =>
          obtain ⟨e, he, hc⟩ := ih (some row.length) hnext
          exact ⟨e, by simp [transformValuesLists, valuesRowDefaultCheck_eq, hd, he], hc⟩
        | some n =>
          by_cases hlen : n ≠ row.length
          · exact ⟨⟨.syntaxError, "VALUES lists must all be the same length"⟩,
              by simp [transformValuesLists, hlen], rfl⟩
          · obtain ⟨e, he, hc⟩ := ih (some n) hnext
            exact ⟨e,
              by simp [transformValuesLists, hlen, valuesRowDefaultCheck_eq, hd, he], hc⟩
  refine ⟨main rows none h, ?_⟩
  intro huni
  have msg : ∀ (rs : List (List VExpr)) (k : Nat),
      (∃ row ∈ rs, VExpr.default ∈ row) →
      (∀ r ∈ rs, List.length r = k) →
      transformValuesLists rs (some k) =
        .error ⟨.syntaxError,
          "DEFAULT can only appear in a VALUES list within INSERT"⟩ := by
    intro rs
    induction rs with
    | nil => intro k h' _; obtain ⟨row, hm, _⟩ := h'; cases hm
    | cons row rest ih =>
      intro k h' hk
      have hrow : row.length = k := hk row (List.mem_cons_self _ _)
      have hlen : ¬ (k ≠ row.length) := by simp [hrow]
      by_cases hd : VExpr.default ∈ row
      · simp [transformValuesLists, hlen, valuesRowDefaultCheck_eq, hd]
      · have hnext : ∃ r ∈ rest, VExpr.default ∈ r := by
          obtain ⟨r, hm, hdm⟩ := h'
          cases hm with
          | head => exact absurd hdm hd
          | tail _ hm' => exact ⟨r, hm', hdm⟩
        have := ih k hnext (fun r hm => hk r (List.mem_cons_of_mem _ hm))
        simp [transformValuesLists, hlen, valuesRowDefaultCheck_eq, hd, this]
  cases rows with
  | nil => obtain ⟨row, hm, _⟩ := h; cases hm
  | cons row rest =>
    by_cases hd : VExpr.default ∈ row
    · simp [transformValuesLists, valuesRowDefaultCheck_eq, hd]
    · have hnext : ∃ r ∈ rest, VExpr.default ∈ r := by
        obtain ⟨r, hm, hdm⟩ := h
        cases hm with
        | head => exact absurd hdm hd
        | tail _ hm' => exact ⟨r, hm', hdm⟩
      have hk : ∀ r ∈ rest, List.length r = row.length := fun r hm =>
        huni r (List.mem_cons_of_mem _ hm) row (List.mem_cons_self _ _)
      have := msg rest row.length hnext hk
      simp [transformValuesLists, valuesRowDefaultCheck_eq, hd, this]

/-- Witness for `transformValuesLists_rejects_default` at a concrete
two-row VALUES list with a DEFAULT in the second row. -/
theorem transformValuesLists_rejects_default_witness :
    (∃ row ∈ [[VExpr.expr 1, VExpr.expr 2], [VExpr.expr 3, VExpr.default]],
      VExpr.default ∈ row) ∧
    ((∃ e, transformValuesLists
        [[VExpr.expr 1, VExpr.expr 2], [VExpr.expr 3, VExpr.default]] none =
          .error e ∧ e.code = .syntaxError) ∧
     ((∀ r₁ ∈ [[VExpr.expr 1, VExpr.expr 2], [VExpr.expr 3, VExpr.default]],
        ∀ r₂ ∈ [[VExpr.expr 1, VExpr.expr 2], [VExpr.expr 3, VExpr.default]],
          List.length r₁ = List.length r₂) →
      transformValuesLists
        [[VExpr.expr 1, VExpr.expr 2], [VExpr.expr 3, VExpr.default]] none =
        .error ⟨.syntaxError,
          "DEFAULT can only appear in a VALUES list within INSERT"⟩)) :=
  ⟨⟨[VExpr.expr 3, VExpr.default], by decide⟩,
   transformValuesLists_rejects_default _
     ⟨[VExpr.expr 3, VExpr.default], by decide⟩⟩

theorem rownum_scan_skip (cat : RownumCatalog) (pre : List RExpr)
    (hpre : ∀ e ∈ pre, contain_rownum e = false) :
    ∀ (l : List RExpr) (i : Nat) (lim : Option RExpr) (hints : List Nat),
      rownum_scan cat (pre ++ l) i lim hints =
        rownum_scan cat l (i + pre.length) lim hints := by
  induction pre with
  | nil => intro l i lim hints; simp
  | cons e es ih =>
    intro l i lim hints
    have he : contain_rownum e = false := hpre e (List.mem_cons_self _ _)
    simp only [List.cons_append, rownum_scan, he, List.append_eq, if_true]
    rw [ih (fun x hx => hpre x (List.mem_cons_of_mem _ hx)) l (i + 1) lim hints]
    have harith : i + 1 + es.length = i + (e :: es).length := by
      simp only [List.length_cons]
      omega
    rw [harith]

/-- C2 counterexample: for a query with qualifier
`rownum <= 0 AND other` (operator 523 named `<=`), the rewrite sets
`limitCount` to the int8 constant 0 but does **not** drop the WHERE
predicates: the canonicalized qualifier, still containing both
predicates, is left in place because the rebuild guarded by
`if (qual_list != NIL)` (analyze.c line 3877) is skipped on the break
path that cleared `qual_list`. -/
theorem rewrite_rownum_counterexample :
    rewrite_rownum_query
      ⟨[], fun _ => InvalidOid, fun o => if o = 523 then some "<=" else none,
        fun _ => false, fun _ => none⟩
      { jointree := some ⟨some (.boolAnd
          [.opE 523 149 [.rownumExpr, .constE INT4OID 0 false], .other 7])⟩,
        limitOffset := none, limitCount := none } =
      { jointree := some ⟨some (.boolAnd
          [.opE 523 149 [.rownumExpr, .constE INT4OID 0 false], .other 7])⟩,
        limitOffset := none, limitCount := some (make_int8_const 0) } ∧
    (some (RExpr.boolAnd
        [.opE 523 149 [.rownumExpr, .constE INT4OID 0 false], .other 7]) ≠
      (none : Option RExpr)) :=
  ⟨rfl, fun h => Option.noConfusion h⟩

/-- C2 amended: for a query satisfying the rewrite preconditions whose
canonicalized qualifier is an AND-list containing a `ROWNUM <= k`
predicate with an integer constant `k ≤ 0` (all earlier conjuncts free of
ROWNUM), the rewrite sets `limitCount` to the int8 constant 0 and leaves
the WHERE qualifier unchanged (the canonicalized AND-list, including the
ROWNUM predicate, stays in place; nothing is dropped). -/
theorem rewrite_rownum_le_nonpositive (cat : RownumCatalog)
    (pre post : List RExpr) (opno opfuncid t : Oid) (k : Int)
    (hpre : ∀ e ∈ pre, contain_rownum e = false)
    (hopno : opno ≠ InvalidOid)
    (hname : cat.opname opno = some "<=")
    (hmut : cat.containMutable (.constE t k false) = false)
    (ht : t = INT8OID ∨ t = INT4OID ∨ t = INT2OID)
    (hk : k ≤ 0) :
    rewrite_rownum_query cat
      { jointree := some ⟨some (.boolAnd
          (pre ++ .opE opno opfuncid [.rownumExpr, .constE t k false] :: post))⟩,
        limitOffset := none, limitCount := none } =
      { jointree := some ⟨some (.boolAnd
          (pre ++ .opE opno opfuncid [.rownumExpr, .constE t k false] :: post))⟩,
        limitOffset := none, limitCount := some (make_int8_const 0) } := by
  have hconst : const_get_int64 (.constE t k false) = some k := by
    rcases ht with h | h | h <;> subst h <;>
      simp [const_get_int64, INT8OID, INT4OID, INT2OID]
  have hcrp : contain_rownum
      (.opE opno opfuncid [.rownumExpr, .constE t k false]) = true := by
    simp [contain_rownum, contain_rownum_list]
  have hcr : contain_rownum
      (.boolAnd (pre ++ .opE opno opfuncid [.rownumExpr, .constE t k false]
        :: post)) = true := by
    have : ∀ (a b : List RExpr),
        contain_rownum_list (a ++ b) = (contain_rownum_list a || contain_rownum_list b) := by
      intro a
      induction a with
      | nil => intro b; simp [contain_rownum_list]
      | cons x xs ih =>
        intro b
        simp [contain_rownum_list, ih, Bool.or_assoc]
    simp [contain_rownum, this, contain_rownum_list, hcrp]
  have hstep : rownum_pred_step cat none
      (.opE opno opfuncid [.rownumExpr, .constE t k false]) = .breakEmpty := by
    simp only [rownum_pred_step, is_rownum, Bool.not_true, Bool.not_false,
      Bool.false_and, Bool.and_false, Bool.false_or, Bool.or_false,
      if_neg hopno]
    simp [hopno, hname, hmut, hconst, hk]
  have hscan : rownum_scan cat
      (pre ++ .opE opno opfuncid [.rownumExpr, .constE t k false] :: post)
      0 none [] = .broke := by
    rw [rownum_scan_skip cat pre hpre]
    simp only [rownum_scan, hcrp, hstep]
    simp
  simp only [rewrite_rownum_query, canonicalize_qual, Option.isSome_none,
    Bool.or_self, Bool.false_eq_true, if_false, hcr]
  simp [hscan, hcr]

/-- Witness for `rewrite_rownum_le_nonpositive` at a concrete query
(`WHERE other5 AND rownum <= -2 AND other9`). -/
theorem rewrite_rownum_le_nonpositive_witness :
    rewrite_rownum_query
      ⟨[], fun _ => InvalidOid, fun o => if o = 523 then some "<=" else none,
        fun _ => false, fun _ => none⟩
      { jointree := some ⟨some (.boolAnd
          ([.other 5] ++ .opE 523 149 [.rownumExpr, .constE INT4OID (-2) false]
            :: [.other 9]))⟩,
        limitOffset := none, limitCount := none } =
      { jointree := some ⟨some (.boolAnd
          ([.other 5] ++ .opE 523 149 [.rownumExpr, .constE INT4OID (-2) false]
            :: [.other 9]))⟩,
        limitOffset := none, limitCount := some (make_int8_const 0) } :=
  rewrite_rownum_le_nonpositive
    ⟨[], fun _ => InvalidOid, fun o => if o = 523 then some "<=" else none,
      fun _ => false, fun _ => none⟩
    [.other 5] [.other 9] 523 149 INT4OID (-2)
    (by
      intro e he
      have : e = .other 5 := List.mem_singleton.mp he
      subst this
      rfl)
    (by decide) rfl rfl (Or.inr (Or.inl rfl)) (by decide)

/-- C4 counterexample: a resjunk entry in the transformed target list is
renumbered and kept, so the fixup succeeds with an output target list
whose total length differs from the input statement's target list
length. -/
theorem transformUpdateTargetList_counterexample :
    transformUpdateTargetList ["a"] 1 1
        [{ resno := 5, resname := some "x", resjunk := true, exprId := 0 }] [] =
      .ok [{ resno := 2, resname := none, resjunk := true, exprId := 0 }] ∧
    ([{ resno := 2, resname := none, resjunk := true, exprId := 0 }] :
        List UTargetEntry).length ≠ ([] : List UResTarget).length :=
  ⟨rfl, by decide⟩

/-- C4 amended: for every successfully fixed-up UPDATE target list, the
number of **non-resjunk** output entries equals the length of the input
statement's target list, and every non-resjunk output entry has `resno`
equal to the attribute number of the target-table column it assigns
(which exists). -/
theorem transformUpdateStmt_targetlist (relCols : List String)
    (relnatts nextResno : Nat) (tlist : List UTargetEntry)
    (origs : List UResTarget) (out : List UTargetEntry)
    (h : transformUpdateTargetList relCols relnatts nextResno tlist origs = .ok out) :
    (out.filter (fun t => !t.resjunk)).length = origs.length ∧
    List.Forall₂
      (fun (t : UTargetEntry) (o : UResTarget) =>
        t.resjunk = false ∧ t.resno = attnameAttNum relCols o.name ∧
        attnameAttNum relCols o.name ≠ 0)
      (out.filter (fun t => !t.resjunk)) origs := by
  have main : ∀ (tl : List UTargetEntry) (og : List UResTarget) (nr : Nat)
      (o : List UTargetEntry),
      updateTargetListFixup relCols tl og nr = .ok o →
      (o.filter (fun t => !t.resjunk)).length = og.length ∧
      List.Forall₂
        (fun (t : UTargetEntry) (ot : UResTarget) =>
          t.resjunk = false ∧ t.resno = attnameAttNum relCols ot.name ∧
          attnameAttNum relCols ot.name ≠ 0)
        (o.filter (fun t => !t.resjunk)) og := by
    intro tl
    induction tl with
    | nil =>
      intro og nr o h'
      cases og with
      | nil =>
        simp only [updateTargetListFixup] at h'
        cases h'
        exact ⟨rfl, List.Forall₂.nil⟩
      | cons x xs => simp [updateTargetListFixup] at h'
    | cons tle rest ih =>
      intro og nr o h'
      by_cases hj : tle.resjunk
      · simp only [updateTargetListFixup, hj, if_true] at h'
        cases hrec : updateTargetListFixup relCols rest og (nr + 1) with
        | error e => rw [hrec] at h'; cases h'
        | ok out' =>
          rw [hrec] at h'
          cases h'
          obtain ⟨h1, h2⟩ := ih og (nr + 1) out' hrec
          constructor
          · simpa [List.filter_cons, hj] using h1
          · simpa [List.filter_cons, hj] using h2
      · simp only [updateTargetListFixup, hj, if_false] at h'
        cases og with
        | nil => cases h'
        | cons origTarget origRest =>
          by_cases ha : attnameAttNum relCols origTarget.name = 0
          · simp [ha] at h'
          · simp only [ha, if_false] at h'
            cases hrec : updateTargetListFixup relCols rest origRest nr with
            | error e => rw [hrec] at h'; cases h'
            | ok out' =>
              rw [hrec] at h'
              cases h'
              obtain ⟨h1, h2⟩ := ih origRest nr out' hrec
              have hjf : tle.resjunk = false := Bool.eq_false_iff.mpr hj
              constructor
              · simp only [List.filter_cons, updateTargetListEntry, hjf,
                  Bool.not_false, if_true, List.length_cons]
                exact congrArg Nat.succ h1
              · simp only [List.filter_cons, updateTargetListEntry, hjf,
                  Bool.not_false, if_true]
                refine List.Forall₂.cons ⟨?_, ?_, ha⟩ h2 <;> rfl
  exact main tlist origs _ out h

/-- Witness for `transformUpdateStmt_targetlist`: a three-entry
transformed list (non-junk `b`, resjunk, non-junk `a`) over relation
columns `[a, b]`. -/
theorem transformUpdateStmt_targetlist_witness :
    transformUpdateTargetList ["a", "b"] 2 3
        [{ resno := 1, resname := some "b", resjunk := false, exprId := 10 },
         { resno := 2, resname := some "j", resjunk := true, exprId := 11 },
         { resno := 3, resname := some "a", resjunk := false, exprId := 12 }]
        [{ name := "b" }, { name := "a" }] =
      .ok [{ resno := 2, resname := some "b", resjunk := false, exprId := 10 },
           { resno := 3, resname := none, resjunk := true, exprId := 11 },
           { resno := 1, resname := some "a", resjunk := false, exprId := 12 }] ∧
    (([{ resno := 2, resname := some "b", resjunk := false, exprId := 10 },
       { resno := 3, resname := none, resjunk := true, exprId := 11 },
       { resno := 1, resname := some "a", resjunk := false, exprId := 12 }] :
        List UTargetEntry).filter (fun t => !t.resjunk)).length =
      ([{ name := "b" }, { name := "a" }] : List UResTarget).length ∧
    List.Forall₂
      (fun (t : UTargetEntry) (o : UResTarget) =>
        t.resjunk = false ∧ t.resno = attnameAttNum ["a", "b"] o.name ∧
        attnameAttNum ["a", "b"] o.name ≠ 0)
      (([{ resno := 2, resname := some "b", resjunk := false, exprId := 10 },
         { resno := 3, resname := none, resjunk := true, exprId := 11 },
         { resno := 1, resname := some "a", resjunk := false, exprId := 12 }] :
          List UTargetEntry).filter (fun t => !t.resjunk))
      [{ name := "b" }, { name := "a" }] :=
  ⟨rfl,
   (transformUpdateStmt_targetlist ["a", "b"] 2 3
      [{ resno := 1, resname := some "b", resjunk := false, exprId := 10 },
       { resno := 2, resname := some "j", resjunk := true, exprId := 11 },
       { resno := 3, resname := some "a", resjunk := false, exprId := 12 }]
      [{ name := "b" }, { name := "a" }]
      [{ resno := 2, resname := some "b", resjunk := false, exprId := 10 },
       { resno := 3, resname := none, resjunk := true, exprId := 11 },
       { resno := 1, resname := some "a", resjunk := false, exprId := 12 }] rfl).1,
   (transformUpdateStmt_targetlist ["a", "b"] 2 3
      [{ resno := 1, resname := some "b", resjunk := false, exprId := 10 },
       { resno := 2, resname := some "j", resjunk := true, exprId := 11 },
       { resno := 3, resname := some "a", resjunk := false, exprId := 12 }]
      [{ name := "b" }, { name := "a" }]
      [{ resno := 2, resname := some "b", resjunk := false, exprId := 10 },
       { resno := 3, resname := none, resjunk := true, exprId := 11 },
       { resno := 1, resname := some "a", resjunk := false, exprId := 12 }] rfl).2⟩

theorem transformInsertRow_ok (assign : IExpr → ICol → IExpr)
    (exprlist : List IExpr) (stmtCols : List String) (icolumns : List ICol)
    (out : List IExpr)
    (h : transformInsertRow assign exprlist stmtCols icolumns = .ok out) :
    out = List.zipWith assign exprlist icolumns := by
  unfold transformInsertRow at h
  by_cases h1 : exprlist.length > icolumns.length
  · simp [h1] at h
  · simp only [h1, if_false] at h
    by_cases h2 : stmtCols ≠ [] ∧ exprlist.length < icolumns.length
    · simp [h2] at h
    · simp only [h2, if_false] at h
      cases h
      rfl

theorem insertValuesScan_spec (assign : IExpr → ICol → IExpr)
    (stmtCols : List String) (icolumns : List ICol) :
    ∀ (rows : List (List IExpr)) (n : Nat) (len : Option Nat)
      (outRows : List (List IExpr)),
      insertValuesScan assign stmtCols icolumns rows (some n) = .ok (len, outRows) →
      len = some n ∧ (∀ r ∈ rows, List.length r = n) ∧
      List.Forall₂ (fun outRow inRow => outRow = List.zipWith assign inRow icolumns)
        outRows rows := by
  intro rows
  induction rows with
  | nil =>
    intro n len outRows h
    simp only [insertValuesScan] at h
    cases h
    exact ⟨rfl, by simp, List.Forall₂.nil⟩
  | cons r rest ih =>
    intro n len outRows h
    simp only [insertValuesScan] at h
    by_cases hlen : n ≠ r.length
    · simp [hlen] at h
    · simp only [hlen, if_false] at h
      have hn : r.length = n := by omega
      cases hrow : transformInsertRow assign r stmtCols icolumns with
      | error e => rw [hrow] at h; cases h
      | ok row =>
        rw [hrow] at h
        cases hrec : insertValuesScan assign stmtCols icolumns rest (some n) with
        | error e => rw [hrec] at h; cases h
        | ok p =>
          obtain ⟨len', rows'⟩ := p
          rw [hrec] at h
          cases h
          obtain ⟨g1, g2, g3⟩ := ih n _ _ hrec
          refine ⟨g1, ?_, List.Forall₂.cons (transformInsertRow_ok _ _ _ _ _ hrow) g3⟩
          intro x hx
          cases hx with
      | head => exact hn
      | tail _ hx' => exact g2 x hx'

/-- C7 counterexample: for a two-row INSERT VALUES whose single column's
expressions both carry collation 100, the collation recorded on the
VALUES range-table entry is `InvalidOid`, not the per-column common
collation (100) the claim requires. -/
theorem insertMultiValues_collation_counterexample :
    transformInsertMultiValues (fun e _ => e) [] [{ name := "a", attnum := 1 }] 1
        [[{ eid := 1, hasVarLevel0 := false, collation := 100 }],
         [{ eid := 2, hasVarLevel0 := false, collation := 100 }]] =
      .ok { exprsLists :=
              [[{ eid := 1, hasVarLevel0 := false, collation := 100 }],
               [{ eid := 2, hasVarLevel0 := false, collation := 100 }]],
            collations := [InvalidOid], lateral := false } ∧
    specSelectCommonCollation
        [{ eid := 1, hasVarLevel0 := false, collation := 100 },
         { eid := 2, hasVarLevel0 := false, collation := 100 }] = 100 ∧
    ([InvalidOid] : List Oid) ≠ [100] :=
  ⟨rfl, rfl, by decide⟩

/-- C7 amended: for every successful multi-row INSERT VALUES
transformation, each row is transformed independently
(`transformInsertRow` of that row alone, which coerces its expressions to
the target columns via `transformAssignedExpr`), all rows have equal
post-transformation length (a differing row raises a syntax error before
this point), the collation list recorded on the VALUES range-table entry
is `InvalidOid` for every column (no per-column common collation is
computed), and the entry is marked LATERAL exactly when the range table
length differs from 1 and current-level variables appear in the
expression lists. -/
theorem transformInsertMultiValues_spec (assign : IExpr → ICol → IExpr)
    (stmtCols : List String) (icolumns : List ICol) (rtableLen : Nat)
    (valuesLists : List (List IExpr)) (res : InsertValuesResult)
    (h : transformInsertMultiValues assign stmtCols icolumns rtableLen
          valuesLists = .ok res) :
    List.Forall₂ (fun outRow inRow => outRow = List.zipWith assign inRow icolumns)
      res.exprsLists valuesLists ∧
    (∀ r₁ ∈ valuesLists, ∀ r₂ ∈ valuesLists, List.length r₁ = List.length r₂) ∧
    res.collations =
      List.replicate ((valuesLists.head?.map List.length).getD 0) InvalidOid ∧
    res.lateral = ((rtableLen != 1) && contain_vars_of_level0 res.exprsLists) := by
  unfold transformInsertMultiValues at h
  cases valuesLists with
  | nil =>
    simp only [insertValuesScan] at h
    cases h
    exact ⟨List.Forall₂.nil, by simp, rfl, rfl⟩
  | cons r rest =>
    simp only [insertValuesScan] at h
    cases hrow : transformInsertRow assign r stmtCols icolumns with
    | error e => rw [hrow] at h; cases h
    | ok row =>
      rw [hrow] at h
      cases hrec : insertValuesScan assign stmtCols icolumns rest (some r.length) with
      | error e => rw [hrec] at h; cases h
      | ok p =>
        obtain ⟨len', rows'⟩ := p
        rw [hrec] at h
        cases h
        obtain ⟨g1, g2, g3⟩ := insertValuesScan_spec assign stmtCols icolumns
          rest r.length _ _ hrec
        subst g1
        refine ⟨List.Forall₂.cons (transformInsertRow_ok _ _ _ _ _ hrow) g3,
          ?_, by simp, rfl⟩
        intro r₁ h₁ r₂ h₂
        have hall : ∀ x ∈ r :: rest, List.length x = r.length := by
          intro x hx
          cases hx with
          | head => rfl
          | tail _ hx' => exact g2 x hx'
        rw [hall r₁ h₁, hall r₂ h₂]

/-- Witness for `transformInsertMultiValues_spec` at a concrete two-row,
two-column input inside a rules context (range-table length 3, a
current-level Var in row 2). -/
theorem transformInsertMultiValues_spec_witness :
    transformInsertMultiValues (fun e _ => e) []
        [{ name := "a", attnum := 1 }, { name := "b", attnum := 2 }] 3
        ([[{ eid := 1, hasVarLevel0 := false, collation := 0 },
           { eid := 2, hasVarLevel0 := false, collation := 0 }],
          [{ eid := 3, hasVarLevel0 := true, collation := 0 },
           { eid := 4, hasVarLevel0 := false, collation := 0 }]] :
          List (List IExpr)) =
      .ok { exprsLists :=
              [[{ eid := 1, hasVarLevel0 := false, collation := 0 },
                { eid := 2, hasVarLevel0 := false, collation := 0 }],
               [{ eid := 3, hasVarLevel0 := true, collation := 0 },
                { eid := 4, hasVarLevel0 := false, collation := 0 }]],
            collations := [InvalidOid, InvalidOid], lateral := true } ∧
    (∀ r₁ ∈ ([[{ eid := 1, hasVarLevel0 := false, collation := 0 },
               { eid := 2, hasVarLevel0 := false, collation := 0 }],
              [{ eid := 3, hasVarLevel0 := true, collation := 0 },
               { eid := 4, hasVarLevel0 := false, collation := 0 }]] :
              List (List IExpr)),
      ∀ r₂ ∈ ([[{ eid := 1, hasVarLevel0 := false, collation := 0 },
                { eid := 2, hasVarLevel0 := false, collation := 0 }],
               [{ eid := 3, hasVarLevel0 := true, collation := 0 },
                { eid := 4, hasVarLevel0 := false, collation := 0 }]] :
               List (List IExpr)),
        List.length r₁ = List.length r₂) :=
  ⟨rfl,
   (transformInsertMultiValues_spec (fun e _ => e) []
     [{ name := "a", attnum := 1 }, { name := "b", attnum := 2 }] 3
     ([[{ eid := 1, hasVarLevel0 := false, collation := 0 },
        { eid := 2, hasVarLevel0 := false, collation := 0 }],
       [{ eid := 3, hasVarLevel0 := true, collation := 0 },
        { eid := 4, hasVarLevel0 := false, collation := 0 }]] :
       List (List IExpr))
     { exprsLists :=
         [[{ eid := 1, hasVarLevel0 := false, collation := 0 },
           { eid := 2, hasVarLevel0 := false, collation := 0 }],
          [{ eid := 3, hasVarLevel0 := true, collation := 0 },
           { eid := 4, hasVarLevel0 := false, collation := 0 }]],
       collations := [InvalidOid, InvalidOid], lateral := true } rfl).2.1⟩

mutual
theorem remove_no_marker : ∀ e : MExpr,
    have_ora_column_join (remove_column_join_expr e) = false
  | .crj _ _ => rfl
  | .varE _ => rfl
  | .opME args => by
    simp only [remove_column_join_expr, have_ora_column_join]
    exact remove_no_marker_list args

theorem remove_no_marker_list : ∀ l : List MExpr,
    have_ora_column_join_list (remove_column_join_expr_list l) = false
  | [] => rfl
  | x :: xs => by
    simp only [remove_column_join_expr_list, have_ora_column_join_list]
    rw [remove_no_marker x, remove_no_marker_list xs]
    rfl
end

mutual
theorem check_no_marker : ∀ (t t' : JTree),
    check_joinon_column_join t = .ok t' → tree_no_marker t' = true
  | .rtref i, t', h => by
    simp only [check_joinon_column_join] at h
    cases h
    rfl
  | .joinExpr jt larg rarg quals, t', h => by
    simp only [check_joinon_column_join] at h
    split at h
    · exact Except.noConfusion h
    · rename_i larg' hl
      split at h
      · exact Except.noConfusion h
      · rename_i rarg' hr
        have ihl := check_no_marker larg larg' hl
        have ihr := check_no_marker rarg rarg' hr
        split at h
        · cases h
          simp [tree_no_marker, ihl, ihr, have_ora_opt]
        · rename_i q
          split at h
          · rename_i hq
            cases h
            simp [tree_no_marker, ihl, ihr, have_ora_opt, hq]
          · split at h
            · exact Except.noConfusion h
            · rename_i jinfo hj
              split at h
              · exact Except.noConfusion h
              · cases h
                simp [tree_no_marker, ihl, ihr, have_ora_opt, remove_no_marker]
  | .fromExpr fromlist quals, t', h => by
    simp only [check_joinon_column_join] at h
    split at h
    · exact Except.noConfusion h
    · rename_i fromlist' hfl
      have ihf := check_no_marker_list fromlist fromlist' hfl
      split at h
      · cases h
        simp [tree_no_marker, ihf, have_ora_opt]
      · rename_i q
        split at h
        · rename_i hq
          cases h
          simp [tree_no_marker, ihf, have_ora_opt, remove_no_marker]
        · rename_i hq
          cases h
          simp only [tree_no_marker, ihf, have_ora_opt, Bool.true_and]
          simp only [Bool.not_eq_true] at hq
          simp [hq]

theorem check_no_marker_list : ∀ (ts ts' : List JTree),
    check_joinon_list ts = .ok ts' → tree_no_marker_list ts' = true
  | [], ts', h => by
    simp only [check_joinon_list] at h
    cases h
    rfl
  | t :: ts, ts', h => by
    simp only [check_joinon_list] at h
    split at h
    · exact Except.noConfusion h
    · rename_i t' ht
      split at h
      · exact Except.noConfusion h
      · rename_i ts'' hts
        cases h
        simp [tree_no_marker_list, check_no_marker t t' ht,
          check_no_marker_list ts ts'' hts]
end

mutual
theorem check_noop : ∀ t : JTree, tree_no_marker t = true →
    check_joinon_column_join t = .ok t
  | .rtref _, _ => rfl
  | .joinExpr jt larg rarg quals, h => by
    simp only [tree_no_marker, Bool.and_eq_true] at h
    obtain ⟨⟨hl, hr⟩, hq⟩ := h
    simp only [check_joinon_column_join, check_noop larg hl, check_noop rarg hr]
    cases quals with
    | none => rfl
    | some q =>
      have hq' : have_ora_column_join q = false := by
        simpa [have_ora_opt] using hq
      simp [hq']
  | .fromExpr fromlist quals, h => by
    simp only [tree_no_marker, Bool.and_eq_true] at h
    obtain ⟨hf, hq⟩ := h
    simp only [check_joinon_column_join, check_noop_list fromlist hf]
    cases quals with
    | none => rfl
    | some q =>
      have hq' : have_ora_column_join q = false := by
        simpa [have_ora_opt] using hq
      simp [hq']

theorem check_noop_list : ∀ ts : List JTree, tree_no_marker_list ts = true →
    check_joinon_list ts = .ok ts
  | [], _ => rfl
  | t :: ts, h => by
    simp only [tree_no_marker_list, Bool.and_eq_true] at h
    simp only [check_joinon_list, check_noop t h.1, check_noop_list ts h.2]
end

/-- C3: every join tree accepted by the outer-join-marker sweep comes out
with no `ColumnRefJoin` marker in any qualifier, and re-running the sweep
on such an output is a no-op: it returns the tree unchanged. -/
theorem check_joinon_consumes_markers (t t' : JTree)
    (h : check_joinon_column_join t = .ok t') :
    tree_no_marker t' = true ∧ check_joinon_column_join t' = .ok t' :=
  ⟨check_no_marker t t' h, check_noop t' (check_no_marker t t' h)⟩

/-- Witness for `check_joinon_consumes_markers`: a FROM list with one
LEFT JOIN whose ON clause carries a marker (`t1.a = t2.a(+)`) and a WHERE
qualifier carrying another marker. -/
theorem check_joinon_consumes_markers_witness :
    check_joinon_column_join
      (.fromExpr [.joinExpr .left (.rtref 1) (.rtref 2)
          (some (.opME [.varE 1, .crj 2 5]))]
        (some (.opME [.crj 2 7]))) =
      .ok (.fromExpr [.joinExpr .left (.rtref 1) (.rtref 2)
          (some (.opME [.varE 1, .varE 2]))]
        (some (.opME [.varE 2]))) ∧
    (tree_no_marker
        (.fromExpr [.joinExpr .left (.rtref 1) (.rtref 2)
            (some (.opME [.varE 1, .varE 2]))]
          (some (.opME [.varE 2]))) = true ∧
      check_joinon_column_join
        (.fromExpr [.joinExpr .left (.rtref 1) (.rtref 2)
            (some (.opME [.varE 1, .varE 2]))]
          (some (.opME [.varE 2]))) =
        .ok (.fromExpr [.joinExpr .left (.rtref 1) (.rtref 2)
            (some (.opME [.varE 1, .varE 2]))]
          (some (.opME [.varE 2])))) :=
  ⟨rfl,
   check_joinon_consumes_markers
     (.fromExpr [.joinExpr .left (.rtref 1) (.rtref 2)
         (some (.opME [.varE 1, .crj 2 5]))]
       (some (.opME [.crj 2 7])))
     (.fromExpr [.joinExpr .left (.rtref 1) (.rtref 2)
         (some (.opME [.varE 1, .varE 2]))]
       (some (.opME [.varE 2]))) rfl⟩

/-- C8: the temporarily pushed join range-table entry is removed: after the
sort-clause transformation the range table equals (hence has the same
length as) its pre-push value, and the saved namespace is restored,
whatever entries the sort transformer may have appended. -/
theorem setOpResolveSort_restores (jrte : RTE) (jrteItem : NSItem)
    (sortAdds : List RTE) (nsDuring : List NSItem) (st : SetOpSortState) :
    (setOpResolveSort jrte jrteItem sortAdds nsDuring st).rtable = st.rtable ∧
    (setOpResolveSort jrte jrteItem sortAdds nsDuring st).rtable.length =
      st.rtable.length ∧
    (setOpResolveSort jrte jrteItem sortAdds nsDuring st).namespaceList =
      st.namespaceList := by
  refine ⟨?_, ?_, rfl⟩
  · show ((st.rtable ++ [jrte]) ++ sortAdds).take st.rtable.length = st.rtable
    rw [List.append_assoc, List.take_append_of_le_length (le_refl _),
        List.take_length]
  · show (((st.rtable ++ [jrte]) ++ sortAdds).take st.rtable.length).length =
      st.rtable.length
    rw [List.append_assoc, List.take_append_of_le_length (le_refl _),
        List.take_length]

end Analyze
